import Mathlib

/-!
Verification of the biogo/illumina package: a shallow embedding of the
Illumina read-identifier parser (`illumina.go`) and of the quality-score
binning compressor, together with proofs of the specified properties.

Go strings are modelled as Lean `String`s (runes are `Char`s), Go `int`
as `Int` (64-bit overflow modelled explicitly where `strconv.Atoi` can
range-error), Go `int8` conversions as explicit wrapping, and Go errors
as an inductive type whose constructors are compared the way Go compares
error values (the sentinel values `ErrBadIdentifer`/`ErrBadTag` are
distinct constructors from any freshly constructed `fmt.Errorf` value or
`strconv` error).
-/

/-- Model of Go `strings.FieldsFunc`: split the character list at every
character satisfying `p`, never producing empty fields.  `cur` is the
reversed characters of the field being accumulated. -/
def fieldsFuncCore (p : Char → Bool) : List Char → List Char → List (List Char)
  | [], cur => if cur.isEmpty then [] else [cur.reverse]
  | c :: cs, cur =>
    if p c then
      if cur.isEmpty then fieldsFuncCore p cs []
      else cur.reverse :: fieldsFuncCore p cs []
    else fieldsFuncCore p cs (c :: cur)

/-- Model of Go `strings.FieldsFunc` on `String`s. -/
def fieldsFunc (p : Char → Bool) (s : String) : List String :=
  (fieldsFuncCore p s.data []).map String.mk

/-- Model of Go `strings.Index(s, "#") >= 0`: does `s` contain the rune `c`. -/
def goContains (s : String) (c : Char) : Bool :=
  s.data.contains c

/-- Value of a non-empty all-decimal-digit character list; `none` if the
list is empty or holds a non-digit (the digit part of `strconv.Atoi`). -/
def digitsVal (l : List Char) : Option Nat :=
  if l.isEmpty then none
  else l.foldl
    (fun acc c => acc.bind fun n =>
      if c.isDigit then some (10 * n + (c.toNat - '0'.toNat)) else none)
    (some 0)

/-- Syntactic part of Go `strconv.Atoi`: an optional `+`/`-` sign followed
by one or more decimal digits; the unbounded integer value. -/
def atoiCore (l : List Char) : Option Int :=
  match l with
  | '+' :: rest => (digitsVal rest).map fun n => (n : Int)
  | '-' :: rest => (digitsVal rest).map fun n => -(n : Int)
  | _ => (digitsVal l).map fun n => (n : Int)

/-- Largest Go `int` (64-bit) value. -/
def int64Max : Int := 9223372036854775807

/-- Smallest Go `int` (64-bit) value. -/
def int64Min : Int := -9223372036854775808

/-- Errors produced by the package, modelled with Go's error-identity
semantics: `badIdentifier` is the sentinel `ErrBadIdentifer`, `badTag` the
sentinel `ErrBadTag`, `badTagDyn tag` the fresh value built by
`fmt.Errorf("illumina: illegal multiplex tag: %s", err)` in `preCasava`
(distinct from every sentinel; it records the offending field), and
`atoiErr s` the `*strconv.NumError` escaping `strconv.Atoi` on input `s`. -/
inductive GoError where
  | badIdentifier
  | badTag
  | badTagDyn (tag : String)
  | atoiErr (s : String)
deriving DecidableEq, Repr

/-- Model of Go `strconv.Atoi`: the returned `int` and the returned error.
On a syntax error Go returns `0`; on a range error it returns the value
clamped to the 64-bit `int` range; in both cases the error is non-nil. -/
def goAtoi (s : String) : Int × Option GoError :=
  match atoiCore s.data with
  | none => (0, some (.atoiErr s))
  | some i =>
    if i > int64Max then (int64Max, some (.atoiErr s))
    else if i < int64Min then (int64Min, some (.atoiErr s))
    else (i, none)

/-- Go's `int8(i)` conversion: wrap into `[-128, 127]`. -/
def toInt8 (i : Int) : Int :=
  (i + 128) % 256 - 128

/-- Function `mustAtoi` from `illumina.go`: empty string means `-1`; otherwise
`strconv.Atoi`, panicking (here: `Except.error`) with the `strconv` error
on failure. -/
def mustAtoi (s : String) : Except GoError Int :=
  if s.length = 0 then .ok (-1)
  else
    match goAtoi s with
    | (i, none) => .ok i
    | (_, some e) => .error e

/-- Function `atob` from `illumina.go`: empty string means `(-1, nil)`; otherwise
`strconv.Atoi` with the result converted through `int8`, the error (if
any) passed back to the caller. -/
def atob (s : String) : Int × Option GoError :=
  if s.length = 0 then (-1, none)
  else
    match goAtoi s with
    | (i, e) => (toInt8 i, e)

/-- Model of `alphabet.DNA.IsValid` from the external biogo alphabet
package: the DNA alphabet has the four nucleotide letters `acgt` and is
not case sensitive, so exactly the eight characters below are valid. -/
def dnaValid (c : Char) : Bool :=
  c == 'a' || c == 'c' || c == 'g' || c == 't' ||
  c == 'A' || c == 'C' || c == 'G' || c == 'T'

/-- Function `tagOk` from `illumina.go`: every rune of the tag is a valid DNA letter. -/
def tagOk (tag : String) : Bool :=
  tag.data.all dnaValid

/-- The `Type` enumeration of `illumina.go` (named `Typ` because `Type` is
reserved in Lean). -/
inductive Typ where
  | Undefined
  | PreCasava
  | Casava
deriving DecidableEq, Repr

/-- A cluster location in a flow-cell lane (`Coordinate` in `illumina.go`). -/
structure Coordinate where
  X : Int
  Y : Int
deriving DecidableEq, Repr

/-- Multiplexing tag information (`Multiplex` in `illumina.go`); `Index`
is a Go `int8`. -/
structure Multiplex where
  Index : Int
  Tag : String
deriving DecidableEq, Repr

/-- Illumina read metadata (`Metadata` in `illumina.go`); the Go field
`Type` is named `type` here.  `Lane` and `Mate` are Go `int8`s. -/
structure Metadata where
  type : Typ
  Instrument : String
  Run : Int
  FlowCell : String
  Lane : Int
  Tile : Int
  Coordinate : Coordinate
  Mate : Int
  BadRead : Bool
  ControlBits : Int
  Multiplex : Multiplex
deriving DecidableEq, Repr

/-- The Go zero value of `Metadata`, as produced by `Metadata{}`. -/
def Metadata.zero : Metadata :=
  { type := .Undefined, Instrument := "", Run := 0, FlowCell := "",
    Lane := 0, Tile := 0, Coordinate := ⟨0, 0⟩, Mate := 0,
    BadRead := false, ControlBits := 0, Multiplex := ⟨0, ""⟩ }

/-- Function `preCasavaSep` from `illumina.go`. -/
def preCasavaSep (r : Char) : Bool :=
  r == ':' || r == '#' || r == '/'

/-- Function `casavaSep` from `illumina.go`. -/
def casavaSep (r : Char) : Bool :=
  r == ':'

/-- The optional-mate tail of `preCasava` (`if len(f) == 7 { m.Mate =
int8(mustAtoi(f[6])) }` followed by `return m, err` with `err = nil`):
a panic in `mustAtoi` is recovered at the top of `preCasava`, which sets
`Type` to `Undefined` on the partially built metadata and returns the
recovered error. -/
def preCasavaMate (f : List String) (m : Metadata) : Metadata × Option GoError :=
  if f.length = 7 then
    match mustAtoi (f.getD 6 "") with
    | .error e => ({ m with type := .Undefined }, some e)
    | .ok mate => ({ m with Mate := toInt8 mate }, none)
  else (m, none)

/-- Body of `preCasava` from `illumina.go`, applied to the already-split
fields.  Panics raised by `mustAtoi` (and the `fmt.Errorf` panic on an
illegal multiplex tag) are recovered by the deferred handler, which sets
`Type = Undefined` on whatever `m` holds at that moment and returns the
recovered error: during evaluation of the composite literal `m` is still
the zero value, while later panics keep the already-assigned fields. -/
def preCasavaF (f : List String) : Metadata × Option GoError :=
  if f.length < 6 then (Metadata.zero, some .badIdentifier)
  else
    match mustAtoi (f.getD 1 "") with
    | .error e => (Metadata.zero, some e)
    | .ok lane =>
      match mustAtoi (f.getD 2 "") with
      | .error e => (Metadata.zero, some e)
      | .ok tile =>
        match mustAtoi (f.getD 3 "") with
        | .error e => (Metadata.zero, some e)
        | .ok x =>
          match mustAtoi (f.getD 4 "") with
          | .error e => (Metadata.zero, some e)
          | .ok y =>
            let m : Metadata :=
              { type := .PreCasava, Instrument := f.getD 0 "", Run := -1,
                FlowCell := "", Lane := toInt8 lane, Tile := tile,
                Coordinate := ⟨x, y⟩, Mate := 0, BadRead := false,
                ControlBits := 0, Multiplex := ⟨0, ""⟩ }
            match atob (f.getD 5 "") with
            | (ix, none) =>
              preCasavaMate f { m with Multiplex := { m.Multiplex with Index := ix } }
            | (ix, some _) =>
              if tagOk (f.getD 5 "") = true then
                preCasavaMate f { m with Multiplex := { Index := -1, Tag := f.getD 5 "" } }
              else
                ({ m with type := .Undefined,
                          Multiplex := { m.Multiplex with Index := ix } },
                  some (.badTagDyn (f.getD 5 "")))

/-- Function `preCasava` from `illumina.go`. -/
def preCasava (name : String) : Metadata × Option GoError :=
  preCasavaF (fieldsFunc preCasavaSep name)

/-- Body of `casava` from `illumina.go`, applied to the already-split name
and description fields (`desc` is still needed for the `desc == ""` and
`desc != ""` tests).  As in `preCasavaF`, a `mustAtoi` panic during the
composite literal leaves `m` at the zero value, while one in the
description block keeps the fields assigned before the panic. -/
def casavaF (desc : String) (nf df : List String) : Metadata × Option GoError :=
  if ¬(nf.length = 7 ∧ (df.length = 4 ∨ desc = "")) then
    (Metadata.zero, some .badIdentifier)
  else if df.length = 4 ∧ ¬(tagOk (df.getD 3 "") = true) then
    (Metadata.zero, some .badTag)
  else
    match mustAtoi (nf.getD 1 "") with
    | .error e => (Metadata.zero, some e)
    | .ok run =>
      match mustAtoi (nf.getD 3 "") with
      | .error e => (Metadata.zero, some e)
      | .ok lane =>
        match mustAtoi (nf.getD 4 "") with
        | .error e => (Metadata.zero, some e)
        | .ok tile =>
          match mustAtoi (nf.getD 5 "") with
          | .error e => (Metadata.zero, some e)
          | .ok x =>
            match mustAtoi (nf.getD 6 "") with
            | .error e => (Metadata.zero, some e)
            | .ok y =>
              let m : Metadata :=
                { type := .Casava, Instrument := nf.getD 0 "", Run := run,
                  FlowCell := nf.getD 2 "", Lane := toInt8 lane, Tile := tile,
                  Coordinate := ⟨x, y⟩, Mate := 0, BadRead := false,
                  ControlBits := -1, Multiplex := ⟨-1, ""⟩ }
              if desc ≠ "" then
                match mustAtoi (df.getD 0 "") with
                | .error e => ({ m with type := .Undefined }, some e)
                | .ok mate =>
                  let m := { m with Mate := toInt8 mate,
                                    BadRead := (df.getD 1 "" == "Y" || df.getD 1 "" == "y") }
                  match mustAtoi (df.getD 2 "") with
                  | .error e => ({ m with type := .Undefined }, some e)
                  | .ok cb =>
                    ({ m with ControlBits := cb,
                              Multiplex := { m.Multiplex with Tag := df.getD 3 "" } },
                      none)
              else (m, none)

/-- Function `casava` from `illumina.go`. -/
def casava (name desc : String) : Metadata × Option GoError :=
  casavaF desc (fieldsFunc casavaSep name) (fieldsFunc casavaSep desc)

/-- Function `Parse` from `illumina.go`.  The `Interface` argument is modelled by
its two accessor results `name = r.Name()` and `desc = r.Description()`. -/
def Parse (name desc : String) : Metadata × Option GoError :=
  if goContains name '#' = true then preCasava name
  else casava name desc

/-- A compression scheme: the Go type `Scheme = *[256]alphabet.Qphred`,
modelled as a function on raw quality values (only indices below 256 are
ever used; values are `Qphred` bytes). -/
abbrev Scheme := Nat → Nat

/-- Table `defaultCompression` from the quality-compression source file: the
256-entry array is zero initialized and then filled from index 2 by the
`switch` over the white-paper ranges, so indices 0 and 1 stay 0. -/
def defaultCompression : Scheme := fun i =>
  if i < 2 then 0
  else if 2 ≤ i ∧ i < 10 then 6
  else if 10 ≤ i ∧ i < 20 then 15
  else if 20 ≤ i ∧ i < 25 then 22
  else if 25 ≤ i ∧ i < 30 then 27
  else if 30 ≤ i ∧ i < 35 then 33
  else if 35 ≤ i ∧ i < 40 then 37
  else if 40 ≤ i then 40
  else 0

/-- An `alphabet.QLetter`: a sequence letter with its quality (both bytes). -/
structure QLetter where
  L : Nat
  Q : Nat
deriving DecidableEq, Repr

/-- The pair of probability-domain conversions owned by the external
collaborator: `probE` models `Qphred.ProbE()` (quality to error
probability, the value a `seq.Scorer`'s `EAt` returns) and `ephred`
models `alphabet.Ephred` composed with the scorer's storage conversion
in `SetE` (probability back to a raw quality).  `E` stands for the
probability domain (`float64` in Go). -/
structure Conv (E : Type) where
  probE : Nat → E
  ephred : E → Nat

/-- A generic `seq.Scorer` backed by a list of raw qualities, with
`Start() = 0`, `End() = qs.length`, `EAt i = conv.probE (qs[i])` and
`SetE i e` storing `conv.ephred e`; the mutator never fails in this
model, so the abort-on-first-error branch of the slow path is vacuous. -/
structure GScorer (E : Type) where
  qs : List Nat
  conv : Conv E

/-- The shapes a `seq.Scorer` can take for `BinCompress`'s dispatch:
a `seq.Slicer` whose `Slice()` is `alphabet.QLetters`, one whose
`Slice()` is `quality.Qphreds`, a `seq.Slicer` of any other concrete
shape (the `default` case) and a scorer that is not a `seq.Slicer`;
the last two fall through to the generic slow path. -/
inductive Scorer (E : Type) where
  | qLetterSeq (d : List QLetter)
  | qphredSeq (d : List Nat)
  | otherSliced (g : GScorer E)
  | plain (g : GScorer E)

/-- The per-element loop of `slowCompression`: for each position, read
`EAt`, convert with `alphabet.Ephred`, look up the table, convert the
result back with `ProbE` and store it through `SetE`. -/
def slowCompressionRun {E : Type} (c : Scheme) (cv : Conv E) : List Nat → List Nat
  | [] => []
  | q :: qs =>
    cv.ephred (cv.probE (c (cv.ephred (cv.probE q)))) :: slowCompressionRun c cv qs

/-- Function `slowCompression` from the quality-compression source file, on the
list-backed generic scorer (whose mutator never fails, hence `none`). -/
def slowCompression {E : Type} (s : GScorer E) (c : Scheme) : GScorer E × Option GoError :=
  ({ s with qs := slowCompressionRun c s.conv s.qs }, none)

/-- Function `BinCompress` from the quality-compression source file: `none` for a
nil `Scheme` selects the shared default table; the two known `Slice()`
shapes are rewritten in place by index, every other scorer goes through
`slowCompression`. -/
def BinCompress {E : Type} (s : Scorer E) (c : Option Scheme) : Scorer E × Option GoError :=
  let t := match c with
    | none => defaultCompression
    | some t => t
  match s with
  | .qLetterSeq d => (.qLetterSeq (d.map fun ql => { ql with Q := t ql.Q }), none)
  | .qphredSeq d => (.qphredSeq (d.map fun q => t q), none)
  | .otherSliced g => (.otherSliced (slowCompression g t).1, (slowCompression g t).2)
  | .plain g => (.plain (slowCompression g t).1, (slowCompression g t).2)

/-- The logical quality value held at every position of a scorer. -/
def Scorer.qualities {E : Type} : Scorer E → List Nat
  | .qLetterSeq d => d.map fun ql => ql.Q
  | .qphredSeq d => d
  | .otherSliced g => g.qs
  | .plain g => g.qs

/-- The scorer's conversion pair round-trips exactly on byte qualities
(trivially true for the direct-storage shapes, which never convert). -/
def Scorer.goodConv {E : Type} : Scorer E → Prop
  | .qLetterSeq _ => True
  | .qphredSeq _ => True
  | .otherSliced g => ∀ q, q < 256 → g.conv.ephred (g.conv.probE q) = q
  | .plain g => ∀ q, q < 256 → g.conv.ephred (g.conv.probE q) = q

/-- Every quality held by the scorer is a byte, as Go's `Qphred` type
guarantees. -/
def Scorer.inRange {E : Type} (s : Scorer E) : Prop :=
  ∀ q ∈ s.qualities, q < 256

/-- The quantization table exactly as the spec lists it, written from the
spec's bucket boundaries for comparison with `defaultCompression`. -/
def specCompressionTable (v : Nat) : Nat :=
  if v ≤ 1 then 0
  else if v ≤ 9 then 6
  else if v ≤ 19 then 15
  else if v ≤ 24 then 22
  else if v ≤ 29 then 27
  else if v ≤ 34 then 33
  else if v ≤ 39 then 37
  else 40

/-! ### Helper lemmas for the quality compressor -/

set_option maxRecDepth 2048 in
/-- Every entry of the default table is itself a fixed point of the table. -/
lemma defaultCompression_fix : ∀ v, v < 256 →
    defaultCompression (defaultCompression v) = defaultCompression v := by
  decide

set_option maxRecDepth 2048 in
/-- The default table maps bytes to bytes. -/
lemma defaultCompression_lt : ∀ v, v < 256 → defaultCompression v < 256 := by
  decide

/-- Under an exactly round-tripping conversion pair, the generic
per-element loop computes the same pointwise table lookup as the direct
storage paths. -/
lemma slowCompressionRun_eq_map {E : Type} (c : Scheme) (cv : Conv E)
    (hr : ∀ q, q < 256 → cv.ephred (cv.probE q) = q)
    (hc : ∀ q, q < 256 → c q < 256) :
    ∀ qs : List Nat, (∀ q ∈ qs, q < 256) →
      slowCompressionRun c cv qs = qs.map fun q => c q := by
  intro qs
  induction qs with
  | nil => intro _; rfl
  | cons q rest ih =>
    intro hq
    have hq0 : q < 256 := hq q (List.mem_cons_self q rest)
    have hcq : c q < 256 := hc q hq0
    simp only [slowCompressionRun, List.map_cons]
    rw [hr q hq0, hr (c q) hcq, ih fun x hx => hq x (List.mem_cons_of_mem q hx)]

/-! ### Claims about the quality compressor -/

set_option maxRecDepth 2048 in
/-- Claim C4: the default compression table maps every quality value v in
[0,255] to the documented bucket value ([0,1] to 0, [2,9] to 6, [10,19]
to 15, [20,24] to 22, [25,29] to 27, [30,34] to 33, [35,39] to 37,
[40,255] to 40), and `BinCompress` with a nil scheme applied to a
single-element raw-quality (`quality.Qphreds`) container holding v
replaces it with that bucket value. -/
theorem C4_default_table_single_element (v : Nat) (h : v < 256) :
    defaultCompression v = specCompressionTable v ∧
    ∀ (E : Type), BinCompress (E := E) (Scorer.qphredSeq [v]) none =
      (Scorer.qphredSeq [specCompressionTable v], none) := by
  have htab : ∀ w, w < 256 → defaultCompression w = specCompressionTable w := by
    decide
  refine ⟨htab v h, fun E => ?_⟩
  simp [BinCompress, htab v h]

/-- Witness for C4 at v = 100 (a value in the [40,255] bucket). -/
theorem C4_default_table_single_element_witness :
    (100 : Nat) < 256 ∧
    (defaultCompression 100 = specCompressionTable 100 ∧
     ∀ (E : Type), BinCompress (E := E) (Scorer.qphredSeq [100]) none =
       (Scorer.qphredSeq [specCompressionTable 100], none)) :=
  ⟨by decide, C4_default_table_single_element 100 (by decide)⟩

/-- Claim C9: the function `BinCompress` with the default table is idempotent: a second
application changes nothing, for every scorer shape (the generic shapes
under the byte-range and exact-round-trip assumptions of the model), and
each output value of the table is a fixed point of the table. -/
theorem C9_bincompress_idempotent (E : Type) (s : Scorer E)
    (h1 : s.goodConv) (h2 : s.inRange) :
    BinCompress (BinCompress s none).1 none = BinCompress s none ∧
    ∀ v, v < 256 → defaultCompression (defaultCompression v) = defaultCompression v := by
  refine ⟨?_, defaultCompression_fix⟩
  cases s with
  | qLetterSeq d =>
    simp only [Scorer.inRange, Scorer.qualities] at h2
    simp only [BinCompress, Prod.mk.injEq, Scorer.qLetterSeq.injEq, and_true]
    rw [List.map_map]
    apply List.map_congr_left
    intro ql hql
    have hQ : ql.Q < 256 := h2 ql.Q (List.mem_map_of_mem _ hql)
    simp [Function.comp, defaultCompression_fix ql.Q hQ]
  | qphredSeq d =>
    simp only [Scorer.inRange, Scorer.qualities] at h2
    simp only [BinCompress, Prod.mk.injEq, Scorer.qphredSeq.injEq, and_true]
    rw [List.map_map]
    apply List.map_congr_left
    intro q hq
    exact defaultCompression_fix q (h2 q hq)
  | otherSliced g =>
    simp only [Scorer.goodConv] at h1
    simp only [Scorer.inRange, Scorer.qualities] at h2
    simp only [BinCompress, slowCompression, Prod.mk.injEq, Scorer.otherSliced.injEq, and_true]
    rw [slowCompressionRun_eq_map _ _ h1 defaultCompression_lt g.qs h2]
    rw [slowCompressionRun_eq_map _ _ h1 defaultCompression_lt _ ?hrange]
    case hrange =>
      intro q hq
      rcases List.mem_map.mp hq with ⟨a, ha, rfl⟩
      exact defaultCompression_lt a (h2 a ha)
    rw [List.map_map]
    have : List.map (((fun q => defaultCompression q)) ∘ fun q => defaultCompression q) g.qs
        = List.map (fun q => defaultCompression q) g.qs := by
      apply List.map_congr_left
      intro q hq
      exact defaultCompression_fix q (h2 q hq)
    rw [this]
  | plain g =>
    simp only [Scorer.goodConv] at h1
    simp only [Scorer.inRange, Scorer.qualities] at h2
    simp only [BinCompress, slowCompression, Prod.mk.injEq, Scorer.plain.injEq, and_true]
    rw [slowCompressionRun_eq_map _ _ h1 defaultCompression_lt g.qs h2]
    rw [slowCompressionRun_eq_map _ _ h1 defaultCompression_lt _ ?hrange2]
    case hrange2 =>
      intro q hq
      rcases List.mem_map.mp hq with ⟨a, ha, rfl⟩
      exact defaultCompression_lt a (h2 a ha)
    rw [List.map_map]
    have : List.map (((fun q => defaultCompression q)) ∘ fun q => defaultCompression q) g.qs
        = List.map (fun q => defaultCompression q) g.qs := by
      apply List.map_congr_left
      intro q hq
      exact defaultCompression_fix q (h2 q hq)
    rw [this]

/-- Witness for C9 on a concrete raw-quality scorer. -/
theorem C9_bincompress_idempotent_witness :
    (Scorer.qphredSeq (E := Unit) [0, 3, 37, 45, 255]).goodConv ∧
    (Scorer.qphredSeq (E := Unit) [0, 3, 37, 45, 255]).inRange ∧
    (BinCompress (BinCompress (Scorer.qphredSeq (E := Unit) [0, 3, 37, 45, 255]) none).1 none =
       BinCompress (Scorer.qphredSeq (E := Unit) [0, 3, 37, 45, 255]) none ∧
     ∀ v, v < 256 → defaultCompression (defaultCompression v) = defaultCompression v) := by
  refine ⟨by simp [Scorer.goodConv], by simp [Scorer.inRange, Scorer.qualities], ?_⟩
  exact C9_bincompress_idempotent Unit _ (by simp [Scorer.goodConv])
    (by simp [Scorer.inRange, Scorer.qualities])

/-- Claim C10: for every table, the direct-storage fast paths (letter+quality
pairs and raw quality array) and the generic per-index path leave every
position holding the same quantized quality value, the generic accessor
and mutator working through the quality-to-probability conversion pair
(assumed to round-trip exactly, which is the claim's "up to the domain
conversion" reading). -/
theorem C10_fast_slow_agree (E : Type) (cv : Conv E) (qs : List Nat)
    (d : List QLetter) (t : Scheme)
    (hr : ∀ q, q < 256 → cv.ephred (cv.probE q) = q)
    (hqs : ∀ q ∈ qs, q < 256)
    (hd : ∀ ql ∈ d, ql.Q < 256)
    (ht : ∀ q, q < 256 → t q < 256) :
    ((BinCompress (Scorer.qphredSeq (E := E) qs) (some t)).1).qualities =
      ((BinCompress (Scorer.plain ⟨qs, cv⟩) (some t)).1).qualities ∧
    ((BinCompress (Scorer.qLetterSeq (E := E) d) (some t)).1).qualities =
      ((BinCompress (Scorer.plain ⟨(d.map fun ql => ql.Q), cv⟩) (some t)).1).qualities := by
  constructor
  · simp only [BinCompress, slowCompression, Scorer.qualities]
    rw [slowCompressionRun_eq_map t cv hr ht qs hqs]
  · simp only [BinCompress, slowCompression, Scorer.qualities]
    rw [slowCompressionRun_eq_map t cv hr ht _ ?hrange]
    case hrange =>
      intro q hq
      rcases List.mem_map.mp hq with ⟨a, ha, rfl⟩
      exact hd a ha
    simp [List.map_map, Function.comp]

/-- Witness for C10 with the identity conversion pair and the default table. -/
theorem C10_fast_slow_agree_witness :
    (∀ q, q < 256 → (Conv.mk (E := Nat) (fun q => q) (fun e => e)).ephred
        ((Conv.mk (E := Nat) (fun q => q) (fun e => e)).probE q) = q) ∧
    (∀ q ∈ [0, 1, 39, 41, 255], q < 256) ∧
    (∀ ql ∈ [QLetter.mk 1 30, QLetter.mk 2 93], ql.Q < 256) ∧
    (∀ q, q < 256 → defaultCompression q < 256) ∧
    (((BinCompress (Scorer.qphredSeq (E := Nat) [0, 1, 39, 41, 255]) (some defaultCompression)).1).qualities =
       ((BinCompress (Scorer.plain ⟨[0, 1, 39, 41, 255], Conv.mk (fun q => q) (fun e => e)⟩) (some defaultCompression)).1).qualities ∧
     ((BinCompress (Scorer.qLetterSeq (E := Nat) [QLetter.mk 1 30, QLetter.mk 2 93]) (some defaultCompression)).1).qualities =
       ((BinCompress (Scorer.plain ⟨([QLetter.mk 1 30, QLetter.mk 2 93].map fun ql => ql.Q), Conv.mk (fun q => q) (fun e => e)⟩) (some defaultCompression)).1).qualities) := by
  refine ⟨fun q _ => rfl, by decide, by decide, defaultCompression_lt, ?_⟩
  exact C10_fast_slow_agree Nat _ _ _ defaultCompression (fun q _ => rfl)
    (by decide) (by decide) defaultCompression_lt

/-! ### Helper lemmas for the identifier parser -/

/-- Exhaustive characterization of `preCasavaF`: either it fails, with a
non-nil error and `Type = Undefined`, or it succeeds with `Type =
PreCasava`, `Run = -1`, `ControlBits` untouched at the zero value `0`,
`BadRead = false`, and the multiplex record holding either an empty tag
(the numeric path) or index `-1` (the tag path). -/
lemma preCasavaF_cases (f : List String) :
    ((preCasavaF f).2 ≠ none ∧ (preCasavaF f).1.type = Typ.Undefined) ∨
    ((preCasavaF f).2 = none ∧ (preCasavaF f).1.type = Typ.PreCasava ∧
     (preCasavaF f).1.Run = -1 ∧ (preCasavaF f).1.ControlBits = 0 ∧
     (preCasavaF f).1.BadRead = false ∧
     ((preCasavaF f).1.Multiplex.Tag = "" ∨ (preCasavaF f).1.Multiplex.Index = -1)) := by
  unfold preCasavaF preCasavaMate
  repeat' split
  all_goals first
    | (left; simp [Metadata.zero]; done)
    | (right; simp [Metadata.zero]; done)

/-- Exhaustive characterization of `casavaF`: either it fails, with a
non-nil error and `Type = Undefined`, or it succeeds with `Type =
Casava`, `Multiplex.Index = -1`, and the description-dependent fields as
`casava` assigns them: all defaults when the description is empty, and
the four description fields (mate through `int8`, bad-read flag, control
bits, multiplex tag) otherwise. -/
lemma casavaF_cases (desc : String) (nf df : List String) :
    ((casavaF desc nf df).2 ≠ none ∧ (casavaF desc nf df).1.type = Typ.Undefined) ∨
    ((casavaF desc nf df).2 = none ∧ (casavaF desc nf df).1.type = Typ.Casava ∧
     (casavaF desc nf df).1.Multiplex.Index = -1 ∧
     (desc = "" →
        (casavaF desc nf df).1.Mate = 0 ∧ (casavaF desc nf df).1.BadRead = false ∧
        (casavaF desc nf df).1.ControlBits = -1 ∧
        (casavaF desc nf df).1.Multiplex = ⟨-1, ""⟩) ∧
     (desc ≠ "" → ∃ mateV cbV,
        mustAtoi (df.getD 0 "") = .ok mateV ∧ mustAtoi (df.getD 2 "") = .ok cbV ∧
        (casavaF desc nf df).1.Mate = toInt8 mateV ∧
        ((casavaF desc nf df).1.BadRead = true ↔
           (df.getD 1 "" = "Y" ∨ df.getD 1 "" = "y")) ∧
        (casavaF desc nf df).1.ControlBits = cbV ∧
        (casavaF desc nf df).1.Multiplex = ⟨-1, df.getD 3 ""⟩)) := by
  unfold casavaF
  repeat' split
  all_goals first
    | (left; simp [Metadata.zero]; done)
    | (right; simp_all [Metadata.zero]; done)

/-- Is this `Except` an error?  (Used to state "a numeric field is
malformed" hypotheses decidably.) -/
def isErrI (x : Except GoError Int) : Bool :=
  match x with
  | .error _ => true
  | .ok _ => false

set_option maxRecDepth 8192 in
/-- Claim C1 counterexample: the older-convention identifier from the package's
own test suite parses without error, but the returned `ControlBits` is
`0` (the Go zero value, never assigned in `preCasava`), not `-1` as the
claim states. -/
theorem C1_counterexample :
    (Parse "HWUSI-EAS100R:6:73:941:1973#0/1" "").2 = none ∧
    (Parse "HWUSI-EAS100R:6:73:941:1973#0/1" "").1.type = Typ.PreCasava ∧
    (Parse "HWUSI-EAS100R:6:73:941:1973#0/1" "").1.Run = -1 ∧
    (Parse "HWUSI-EAS100R:6:73:941:1973#0/1" "").1.BadRead = false ∧
    ¬((Parse "HWUSI-EAS100R:6:73:941:1973#0/1" "").1.ControlBits = -1) := by
  decide

/-- Claim C1 as amended: for every older-convention (pre-Casava) identifier
that `Parse` accepts without error, the returned metadata has `Run = -1`,
`ControlBits = 0` (the Go zero value; `preCasava` never assigns this
field) and `BadRead = false`. -/
theorem C1_precasava_run_controlbits_badread (name desc : String)
    (hc : goContains name '#' = true)
    (hok : (Parse name desc).2 = none) :
    (Parse name desc).1.Run = -1 ∧ (Parse name desc).1.ControlBits = 0 ∧
    (Parse name desc).1.BadRead = false := by
  have hP : Parse name desc = preCasavaF (fieldsFunc preCasavaSep name) := by
    simp [Parse, hc, preCasava]
  rw [hP] at hok ⊢
  rcases preCasavaF_cases (fieldsFunc preCasavaSep name) with ⟨hne, _⟩ | h2
  · exact absurd hok hne
  · exact ⟨h2.2.2.1, h2.2.2.2.1, h2.2.2.2.2.1⟩

set_option maxRecDepth 8192 in
/-- Witness for the amended C1 at the identifier from the test suite. -/
theorem C1_precasava_run_controlbits_badread_witness :
    goContains "HWUSI-EAS100R:6:73:941:1973#0/1" '#' = true ∧
    (Parse "HWUSI-EAS100R:6:73:941:1973#0/1" "").2 = none ∧
    ((Parse "HWUSI-EAS100R:6:73:941:1973#0/1" "").1.Run = -1 ∧
     (Parse "HWUSI-EAS100R:6:73:941:1973#0/1" "").1.ControlBits = 0 ∧
     (Parse "HWUSI-EAS100R:6:73:941:1973#0/1" "").1.BadRead = false) :=
  ⟨by decide, by decide,
   C1_precasava_run_controlbits_badread _ _ (by decide) (by decide)⟩

set_option maxRecDepth 8192 in
/-- Claim C2 counterexample, two inputs.  First: the multiplex field `0!` fails
integer parsing and contains a non-DNA character, yet the returned error
is the fresh `fmt.Errorf` value (`badTagDyn`), not the `ErrBadTag`
sentinel.  Second: when the lane field is also malformed, the error is
the recovered `strconv` error, again not `ErrBadTag`. -/
theorem C2_counterexample :
    ((fieldsFunc preCasavaSep "HWUSI-EAS100R:6:73:941:1973#0!/1").getD 5 "" = "0!" ∧
     (atob "0!").2 ≠ none ∧ tagOk "0!" = false ∧
     (Parse "HWUSI-EAS100R:6:73:941:1973#0!/1" "").2 = some (GoError.badTagDyn "0!") ∧
     (Parse "HWUSI-EAS100R:6:73:941:1973#0!/1" "").2 ≠ some GoError.badTag) ∧
    ((fieldsFunc preCasavaSep "HWUSI:a:73:941:1973#0!/1").getD 5 "" = "0!" ∧
     (atob "0!").2 ≠ none ∧ tagOk "0!" = false ∧
     (Parse "HWUSI:a:73:941:1973#0!/1" "").2 = some (GoError.atoiErr "a") ∧
     (Parse "HWUSI:a:73:941:1973#0!/1" "").2 ≠ some GoError.badTag) := by
  decide

/-- Claim C2 as amended: for every older-convention identifier with at least 6
fields whose lane/tile/x/y fields parse as integers and whose multiplex
field fails integer parsing and fails the DNA-alphabet check, `Parse`
fails and the returned error is the freshly constructed "illegal
multiplex tag" error for that field — a value distinct from the
`ErrBadTag` sentinel. -/
theorem C2_precasava_bad_tag_error (name desc : String)
    (hc : goContains name '#' = true)
    (hlen : ¬ (fieldsFunc preCasavaSep name).length < 6)
    (h1 : isErrI (mustAtoi ((fieldsFunc preCasavaSep name).getD 1 "")) = false)
    (h2 : isErrI (mustAtoi ((fieldsFunc preCasavaSep name).getD 2 "")) = false)
    (h3 : isErrI (mustAtoi ((fieldsFunc preCasavaSep name).getD 3 "")) = false)
    (h4 : isErrI (mustAtoi ((fieldsFunc preCasavaSep name).getD 4 "")) = false)
    (h5 : (atob ((fieldsFunc preCasavaSep name).getD 5 "")).2 ≠ none)
    (h6 : tagOk ((fieldsFunc preCasavaSep name).getD 5 "") = false) :
    (Parse name desc).2 =
      some (GoError.badTagDyn ((fieldsFunc preCasavaSep name).getD 5 "")) ∧
    (Parse name desc).2 ≠ some GoError.badTag := by
  have hP : Parse name desc = preCasavaF (fieldsFunc preCasavaSep name) := by
    simp [Parse, hc, preCasava]
  rw [hP]
  unfold preCasavaF
  rw [if_neg hlen]
  cases e1 : mustAtoi ((fieldsFunc preCasavaSep name).getD 1 "") with
  | error e => rw [e1] at h1; simp [isErrI] at h1
  | ok lane =>
    cases e2 : mustAtoi ((fieldsFunc preCasavaSep name).getD 2 "") with
    | error e => rw [e2] at h2; simp [isErrI] at h2
    | ok tile =>
      cases e3 : mustAtoi ((fieldsFunc preCasavaSep name).getD 3 "") with
      | error e => rw [e3] at h3; simp [isErrI] at h3
      | ok x =>
        cases e4 : mustAtoi ((fieldsFunc preCasavaSep name).getD 4 "") with
        | error e => rw [e4] at h4; simp [isErrI] at h4
        | ok y =>
          rcases e5 : atob ((fieldsFunc preCasavaSep name).getD 5 "") with ⟨ix, oe⟩
          cases oe with
          | none => rw [e5] at h5; simp at h5
          | some e => simp only [e1, e2, e3, e4, e5, h6]; simp

set_option maxRecDepth 8192 in
/-- Witness for the amended C2 on the identifier with multiplex field `0!`. -/
theorem C2_precasava_bad_tag_error_witness :
    goContains "HWUSI-EAS100R:6:73:941:1973#0!/1" '#' = true ∧
    ¬ (fieldsFunc preCasavaSep "HWUSI-EAS100R:6:73:941:1973#0!/1").length < 6 ∧
    isErrI (mustAtoi ((fieldsFunc preCasavaSep "HWUSI-EAS100R:6:73:941:1973#0!/1").getD 1 "")) = false ∧
    isErrI (mustAtoi ((fieldsFunc preCasavaSep "HWUSI-EAS100R:6:73:941:1973#0!/1").getD 2 "")) = false ∧
    isErrI (mustAtoi ((fieldsFunc preCasavaSep "HWUSI-EAS100R:6:73:941:1973#0!/1").getD 3 "")) = false ∧
    isErrI (mustAtoi ((fieldsFunc preCasavaSep "HWUSI-EAS100R:6:73:941:1973#0!/1").getD 4 "")) = false ∧
    (atob ((fieldsFunc preCasavaSep "HWUSI-EAS100R:6:73:941:1973#0!/1").getD 5 "")).2 ≠ none ∧
    tagOk ((fieldsFunc preCasavaSep "HWUSI-EAS100R:6:73:941:1973#0!/1").getD 5 "") = false ∧
    ((Parse "HWUSI-EAS100R:6:73:941:1973#0!/1" "").2 =
       some (GoError.badTagDyn ((fieldsFunc preCasavaSep "HWUSI-EAS100R:6:73:941:1973#0!/1").getD 5 "")) ∧
     (Parse "HWUSI-EAS100R:6:73:941:1973#0!/1" "").2 ≠ some GoError.badTag) :=
  ⟨by decide, by decide, by decide, by decide, by decide, by decide, by decide, by decide,
   C2_precasava_bad_tag_error _ _ (by decide) (by decide) (by decide) (by decide)
     (by decide) (by decide) (by decide) (by decide)⟩

set_option maxRecDepth 8192 in
/-- Claim C3 counterexample: the older-convention identifier `I:1:2:3:4#5/z`
has a malformed mate field, so `Parse` fails, yet the returned metadata
keeps the already-assigned fields (`Instrument = "I"`, `Lane = 1`, and so
on) instead of being all-zero. -/
theorem C3_counterexample :
    (Parse "I:1:2:3:4#5/z" "").2 ≠ none ∧
    (Parse "I:1:2:3:4#5/z" "").1.type = Typ.Undefined ∧
    (Parse "I:1:2:3:4#5/z" "").1.Instrument = "I" ∧
    (Parse "I:1:2:3:4#5/z" "").1.Lane = 1 ∧
    ¬((Parse "I:1:2:3:4#5/z" "").1.Instrument = "") := by
  decide

/-- Claim C3 as amended: whenever `Parse` returns a non-nil error the returned
metadata has `Type = Undefined`; the remaining fields are all at their
zero value when the failure happens before the metadata literal is
assigned (wrong field count, Casava tag check, literal-evaluation
panics), but a failure after it (pre-Casava multiplex-tag panic or a
malformed mate/description field) keeps the already-assigned fields. -/
theorem C3_error_type_undefined (name desc : String)
    (h : (Parse name desc).2 ≠ none) :
    (Parse name desc).1.type = Typ.Undefined := by
  by_cases hc : goContains name '#' = true
  · have hP : Parse name desc = preCasavaF (fieldsFunc preCasavaSep name) := by
      simp [Parse, hc, preCasava]
    rw [hP] at h ⊢
    rcases preCasavaF_cases (fieldsFunc preCasavaSep name) with ⟨_, ht⟩ | ⟨he, _⟩
    · exact ht
    · exact absurd he h
  · have hP : Parse name desc =
        casavaF desc (fieldsFunc casavaSep name) (fieldsFunc casavaSep desc) := by
      simp [Parse, hc, casava]
    rw [hP] at h ⊢
    rcases casavaF_cases desc (fieldsFunc casavaSep name) (fieldsFunc casavaSep desc) with
      ⟨_, ht⟩ | ⟨he, _⟩
    · exact ht
    · exact absurd he h

/-- Witness for the amended C3 at an identifier with too few fields. -/
theorem C3_error_type_undefined_witness :
    (Parse "A#B" "").2 ≠ none ∧ (Parse "A#B" "").1.type = Typ.Undefined :=
  ⟨by decide, C3_error_type_undefined _ _ (by decide)⟩

set_option maxRecDepth 8192 in
/-- Claim C5 counterexample: the older-convention identifier `I:1:2:3:4#-5/1`
parses without error although its numeric multiplex field is negative:
the result has `Multiplex.Index = -5` and an empty tag, so neither
`Index >= 0` nor `Tag != ""` holds, and the index is not the
absent-marker `-1` either. -/
theorem C5_counterexample :
    (Parse "I:1:2:3:4#-5/1" "").2 = none ∧
    (Parse "I:1:2:3:4#-5/1" "").1.type = Typ.PreCasava ∧
    (Parse "I:1:2:3:4#-5/1" "").1.Multiplex.Index = -5 ∧
    (Parse "I:1:2:3:4#-5/1" "").1.Multiplex.Tag = "" ∧
    ¬((Parse "I:1:2:3:4#-5/1" "").1.Multiplex.Index ≥ 0 ∨
      (Parse "I:1:2:3:4#-5/1" "").1.Multiplex.Index = -1) := by
  decide

/-- Claim C5 as amended: for every successful `Parse`, at most one of
`Multiplex.Index >= 0` and `Multiplex.Tag != ""` holds (never both), and
when multiplexing information is absent (newer convention with empty
description) the result is exactly `Index = -1, Tag = ""`; an
older-convention numeric multiplex field may, however, leave a negative
`int8` index other than `-1` with an empty tag. -/
theorem C5_multiplex_invariant (name desc : String)
    (hok : (Parse name desc).2 = none) :
    ¬((Parse name desc).1.Multiplex.Index ≥ 0 ∧
      (Parse name desc).1.Multiplex.Tag ≠ "") ∧
    (goContains name '#' = false → desc = "" →
      (Parse name desc).1.Multiplex = ⟨-1, ""⟩) := by
  by_cases hc : goContains name '#' = true
  · have hP : Parse name desc = preCasavaF (fieldsFunc preCasavaSep name) := by
      simp [Parse, hc, preCasava]
    rw [hP] at hok ⊢
    rcases preCasavaF_cases (fieldsFunc preCasavaSep name) with ⟨hne, _⟩ | h2
    · exact absurd hok hne
    · refine ⟨?_, fun hcf _ => ?_⟩
      · rcases h2.2.2.2.2.2 with htag | hidx
        · rintro ⟨_, hT⟩; exact hT htag
        · rintro ⟨hI, _⟩; rw [hidx] at hI; omega
      · rw [hcf] at hc; exact Bool.noConfusion hc
  · have hP : Parse name desc =
        casavaF desc (fieldsFunc casavaSep name) (fieldsFunc casavaSep desc) := by
      simp [Parse, hc, casava]
    rw [hP] at hok ⊢
    rcases casavaF_cases desc (fieldsFunc casavaSep name) (fieldsFunc casavaSep desc) with
      ⟨hne, _⟩ | h2
    · exact absurd hok hne
    · refine ⟨?_, fun _ hdesc => ?_⟩
      · rintro ⟨hI, _⟩; rw [h2.2.2.1] at hI; omega
      · exact (h2.2.2.2.1 hdesc).2.2.2

set_option maxRecDepth 8192 in
/-- Witness for the amended C5, both for a successful older-convention
parse (numeric index) and for the absent-description newer convention. -/
theorem C5_multiplex_invariant_witness :
    ((Parse "EAS139:136:FC706VJ:2:2104:15343:197393" "").2 = none ∧
     (¬((Parse "EAS139:136:FC706VJ:2:2104:15343:197393" "").1.Multiplex.Index ≥ 0 ∧
        (Parse "EAS139:136:FC706VJ:2:2104:15343:197393" "").1.Multiplex.Tag ≠ "") ∧
      (goContains "EAS139:136:FC706VJ:2:2104:15343:197393" '#' = false → "" = "" →
        (Parse "EAS139:136:FC706VJ:2:2104:15343:197393" "").1.Multiplex = ⟨-1, ""⟩))) :=
  ⟨by decide, C5_multiplex_invariant _ _ (by decide)⟩

/-- Claim C6: the function `Parse` fails with exactly the `ErrBadIdentifer` sentinel (and an
all-zero metadata) when field counts are wrong: an older-convention name
(one containing `#`) splitting into fewer than 6 fields on `:`/`#`/`/`,
a newer-convention name splitting into other than 7 fields on `:`, or a
non-empty description splitting into other than 4 fields on `:`. -/
theorem C6_field_count_bad_identifier (name desc : String) :
    (goContains name '#' = true → (fieldsFunc preCasavaSep name).length < 6 →
       Parse name desc = (Metadata.zero, some GoError.badIdentifier)) ∧
    (goContains name '#' = false → (fieldsFunc casavaSep name).length ≠ 7 →
       Parse name desc = (Metadata.zero, some GoError.badIdentifier)) ∧
    (goContains name '#' = false → desc ≠ "" →
       (fieldsFunc casavaSep desc).length ≠ 4 →
       Parse name desc = (Metadata.zero, some GoError.badIdentifier)) := by
  refine ⟨fun hc hlen => ?_, fun hc hlen => ?_, fun hc hd hlen => ?_⟩
  · simp [Parse, hc, preCasava, preCasavaF, hlen]
  · simp [Parse, hc, casava, casavaF, hlen]
  · simp [Parse, hc, casava, casavaF, hlen, hd]

set_option maxRecDepth 8192 in
/-- Witness for C6 on three concrete malformed identifiers. -/
theorem C6_field_count_bad_identifier_witness :
    (goContains "A:1#2" '#' = true ∧ (fieldsFunc preCasavaSep "A:1#2").length < 6 ∧
       Parse "A:1#2" "" = (Metadata.zero, some GoError.badIdentifier)) ∧
    (goContains "A:1:2" '#' = false ∧ (fieldsFunc casavaSep "A:1:2").length ≠ 7 ∧
       Parse "A:1:2" "" = (Metadata.zero, some GoError.badIdentifier)) ∧
    (goContains "EAS139:136:FC706VJ:2:2104:15343:197393" '#' = false ∧
       ("x:y" : String) ≠ "" ∧ (fieldsFunc casavaSep "x:y").length ≠ 4 ∧
       Parse "EAS139:136:FC706VJ:2:2104:15343:197393" "x:y" =
         (Metadata.zero, some GoError.badIdentifier)) :=
  ⟨⟨by decide, by decide,
    (C6_field_count_bad_identifier "A:1#2" "").1 (by decide) (by decide)⟩,
   ⟨by decide, by decide,
    (C6_field_count_bad_identifier "A:1:2" "").2.1 (by decide) (by decide)⟩,
   ⟨by decide, by decide, by decide,
    (C6_field_count_bad_identifier "EAS139:136:FC706VJ:2:2104:15343:197393" "x:y").2.2
      (by decide) (by decide) (by decide)⟩⟩

deriving instance DecidableEq for Except

set_option maxRecDepth 8192 in
/-- Claim C7 counterexample: with description `300:Y:18:ATCACG` the parse
succeeds, but `Mate` is the `int8` truncation `44` of the field value
`300`, not the integer value of the field. -/
theorem C7_counterexample :
    (Parse "EAS139:136:FC706VJ:2:2104:15343:197393" "300:Y:18:ATCACG").2 = none ∧
    (fieldsFunc casavaSep "300:Y:18:ATCACG").getD 0 "" = "300" ∧
    mustAtoi "300" = Except.ok 300 ∧
    (Parse "EAS139:136:FC706VJ:2:2104:15343:197393" "300:Y:18:ATCACG").1.Mate = 44 ∧
    ¬((Parse "EAS139:136:FC706VJ:2:2104:15343:197393" "300:Y:18:ATCACG").1.Mate = 300) := by
  decide

/-- Claim C7 as amended: for every newer-convention identifier accepted by
`Parse` with description fields present, `Mate` is the `int8` truncation
of the integer value of field 1, `BadRead` holds iff field 2 is `Y` or
`y`, `ControlBits` is the integer value of field 3, and the multiplex
record is `Index = -1` with `Tag` = field 4; with an empty description,
`Mate = 0`, `BadRead = false`, `ControlBits = -1` and `Multiplex =
{Index: -1, Tag: ""}`. -/
theorem C7_casava_description_fields (name desc : String)
    (hc : goContains name '#' = false)
    (hok : (Parse name desc).2 = none) :
    (desc = "" →
       (Parse name desc).1.Mate = 0 ∧ (Parse name desc).1.BadRead = false ∧
       (Parse name desc).1.ControlBits = -1 ∧
       (Parse name desc).1.Multiplex = ⟨-1, ""⟩) ∧
    (desc ≠ "" → ∃ mateV cbV,
       mustAtoi ((fieldsFunc casavaSep desc).getD 0 "") = Except.ok mateV ∧
       mustAtoi ((fieldsFunc casavaSep desc).getD 2 "") = Except.ok cbV ∧
       (Parse name desc).1.Mate = toInt8 mateV ∧
       ((Parse name desc).1.BadRead = true ↔
          ((fieldsFunc casavaSep desc).getD 1 "" = "Y" ∨
           (fieldsFunc casavaSep desc).getD 1 "" = "y")) ∧
       (Parse name desc).1.ControlBits = cbV ∧
       (Parse name desc).1.Multiplex = ⟨-1, (fieldsFunc casavaSep desc).getD 3 ""⟩) := by
  have hP : Parse name desc =
      casavaF desc (fieldsFunc casavaSep name) (fieldsFunc casavaSep desc) := by
    simp [Parse, hc, casava]
  rw [hP] at hok ⊢
  rcases casavaF_cases desc (fieldsFunc casavaSep name) (fieldsFunc casavaSep desc) with
    ⟨hne, _⟩ | h2
  · exact absurd hok hne
  · exact ⟨h2.2.2.2.1, h2.2.2.2.2⟩

set_option maxRecDepth 8192 in
/-- Witness for the amended C7 at the Casava identifier from the test suite. -/
theorem C7_casava_description_fields_witness :
    goContains "EAS139:136:FC706VJ:2:2104:15343:197393" '#' = false ∧
    (Parse "EAS139:136:FC706VJ:2:2104:15343:197393" "1:Y:18:ATCACG").2 = none ∧
    ((("1:Y:18:ATCACG" : String) = "" →
       (Parse "EAS139:136:FC706VJ:2:2104:15343:197393" "1:Y:18:ATCACG").1.Mate = 0 ∧
       (Parse "EAS139:136:FC706VJ:2:2104:15343:197393" "1:Y:18:ATCACG").1.BadRead = false ∧
       (Parse "EAS139:136:FC706VJ:2:2104:15343:197393" "1:Y:18:ATCACG").1.ControlBits = -1 ∧
       (Parse "EAS139:136:FC706VJ:2:2104:15343:197393" "1:Y:18:ATCACG").1.Multiplex = ⟨-1, ""⟩) ∧
     (("1:Y:18:ATCACG" : String) ≠ "" → ∃ mateV cbV,
       mustAtoi ((fieldsFunc casavaSep "1:Y:18:ATCACG").getD 0 "") = Except.ok mateV ∧
       mustAtoi ((fieldsFunc casavaSep "1:Y:18:ATCACG").getD 2 "") = Except.ok cbV ∧
       (Parse "EAS139:136:FC706VJ:2:2104:15343:197393" "1:Y:18:ATCACG").1.Mate = toInt8 mateV ∧
       ((Parse "EAS139:136:FC706VJ:2:2104:15343:197393" "1:Y:18:ATCACG").1.BadRead = true ↔
          ((fieldsFunc casavaSep "1:Y:18:ATCACG").getD 1 "" = "Y" ∨
           (fieldsFunc casavaSep "1:Y:18:ATCACG").getD 1 "" = "y")) ∧
       (Parse "EAS139:136:FC706VJ:2:2104:15343:197393" "1:Y:18:ATCACG").1.ControlBits = cbV ∧
       (Parse "EAS139:136:FC706VJ:2:2104:15343:197393" "1:Y:18:ATCACG").1.Multiplex =
         ⟨-1, (fieldsFunc casavaSep "1:Y:18:ATCACG").getD 3 ""⟩)) :=
  ⟨by decide, by decide,
   C7_casava_description_fields _ _ (by decide) (by decide)⟩

/-- Claim C8: in the newer convention with a 4-field description, the
DNA-alphabet check of the multiplex tag runs before any numeric field is
parsed, so when the tag is malformed and some required numeric field is
malformed too, `Parse` returns the `ErrBadTag` sentinel, not
`ErrBadIdentifer`. -/
theorem C8_tag_precedes_numeric (name desc : String)
    (hc : goContains name '#' = false)
    (hnf : (fieldsFunc casavaSep name).length = 7)
    (hdf : (fieldsFunc casavaSep desc).length = 4)
    (htag : tagOk ((fieldsFunc casavaSep desc).getD 3 "") = false)
    (hnum : isErrI (mustAtoi ((fieldsFunc casavaSep name).getD 1 "")) = true ∨
            isErrI (mustAtoi ((fieldsFunc casavaSep name).getD 3 "")) = true ∨
            isErrI (mustAtoi ((fieldsFunc casavaSep name).getD 4 "")) = true ∨
            isErrI (mustAtoi ((fieldsFunc casavaSep name).getD 5 "")) = true ∨
            isErrI (mustAtoi ((fieldsFunc casavaSep name).getD 6 "")) = true ∨
            isErrI (mustAtoi ((fieldsFunc casavaSep desc).getD 0 "")) = true ∨
            isErrI (mustAtoi ((fieldsFunc casavaSep desc).getD 2 "")) = true) :
    (Parse name desc).2 = some GoError.badTag ∧
    (Parse name desc).2 ≠ some GoError.badIdentifier := by
  have hP : Parse name desc =
      casavaF desc (fieldsFunc casavaSep name) (fieldsFunc casavaSep desc) := by
    simp [Parse, hc, casava]
  rw [hP]
  unfold casavaF
  rw [if_neg (by simp [hnf, hdf])]
  rw [if_pos ⟨hdf, by simp only [htag]; simp⟩]
  simp

set_option maxRecDepth 8192 in
/-- Witness for C8: malformed run field `xx` together with malformed tag
`AT!CG` yields `ErrBadTag`. -/
theorem C8_tag_precedes_numeric_witness :
    goContains "EAS139:xx:FC706VJ:2:2104:15343:197393" '#' = false ∧
    (fieldsFunc casavaSep "EAS139:xx:FC706VJ:2:2104:15343:197393").length = 7 ∧
    (fieldsFunc casavaSep "1:Y:18:AT!CG").length = 4 ∧
    tagOk ((fieldsFunc casavaSep "1:Y:18:AT!CG").getD 3 "") = false ∧
    isErrI (mustAtoi ((fieldsFunc casavaSep "EAS139:xx:FC706VJ:2:2104:15343:197393").getD 1 "")) = true ∧
    ((Parse "EAS139:xx:FC706VJ:2:2104:15343:197393" "1:Y:18:AT!CG").2 = some GoError.badTag ∧
     (Parse "EAS139:xx:FC706VJ:2:2104:15343:197393" "1:Y:18:AT!CG").2 ≠ some GoError.badIdentifier) :=
  ⟨by decide, by decide, by decide, by decide, by decide,
   C8_tag_precedes_numeric _ _ (by decide) (by decide) (by decide) (by decide)
     (Or.inl (by decide))⟩
